import Mathlib

/-!
Shallow embedding of the bluefang core protocol layers (AVCTP, AVDTP, AVRCP)
from `src/avctp/mod.rs`, `src/avdtp/mod.rs` and `src/avrcp/mod.rs`.

Bytes are modelled as `Nat` (all values produced by the byte readers are < 256 in
the source; arithmetic that shifts packs them with explicit `*`/`/`).  Fallible
Rust code returning `Result` is modelled with `Except`; suspending I/O (L2CAP
reads and sends, channel sends) is modelled by returning the emitted messages in
an output list, with sends treated as succeeding (failures in the source are only
logged).  `tokio` senders and the `EventParser` function pointers are modelled as
opaque numeric identifiers, so that a delivery on a sender is an observable
output.
-/

namespace Bluefang

namespace Avrcp

/-- AV/C command codes (`avc::CommandCode`).  Modelled from the spec: the `avc`
module is not under `src/`; §3 lists Control, Status, SpecificInquiry, Notify,
GeneralInquiry as commands and NotImplemented, Accepted, Rejected, InTransition,
Implemented/Stable, Changed, Interim as responses. -/
inductive CommandCode where
  | Control
  | Status
  | SpecificInquiry
  | Notify
  | GeneralInquiry
  | NotImplemented
  | Accepted
  | Rejected
  | InTransition
  | Implemented
  | Changed
  | Interim
  deriving DecidableEq, Repr

/-- Modelled from the spec: `CommandCode::is_response` distinguishes the response
codes from the command codes listed in §3 of the spec. -/
def CommandCode.is_response : CommandCode → Bool
  | .Control | .Status | .SpecificInquiry | .Notify | .GeneralInquiry => false
  | _ => true

/-- AVRCP notification event ids (`avrcp::packets::EventId`, module not under
`src/`).  Modelled from the spec: VolumeChanged has wire id 0x0D (§8 scenario 4);
other event ids are carried numerically. -/
inductive EventId where
  | VolumeChanged
  | Other (id : Nat)
  deriving DecidableEq, Repr

def EventId.toByte : EventId → Nat
  | .VolumeChanged => 0x0d
  | .Other n => n

/-- Modelled from the spec: decoding an event id byte; 0x0D is VolumeChanged,
anything else is an event this stack does not support (it is still parseable:
the spec has `RegisterNotification` reject unsupported events with
InvalidParameter after parsing them). -/
def decodeEventId (b : Nat) : EventId :=
  if b = 0x0d then .VolumeChanged else .Other b

/-- AVRCP application error codes (`avrcp::error::ErrorCode`, module not under
`src/`).  Modelled from the spec §7: InvalidCommand=0x00, InvalidParameter=0x01,
ParameterContentError=0x02, InternalError=0x03; NoError appears in pass-through
rejection. -/
inductive ErrorCode where
  | NoError
  | InvalidCommand
  | InvalidParameter
  | ParameterContentError
  | InternalError
  deriving DecidableEq, Repr

def ErrorCode.toByte : ErrorCode → Nat
  | .InvalidCommand => 0x00
  | .InvalidParameter => 0x01
  | .ParameterContentError => 0x02
  | .InternalError => 0x03
  | .NoError => 0x04

/-- `avrcp::Error`, the error type delivered to user-command response senders
(`avrcp::error`, module not under `src/`; variants appear at their use sites in
`src/avrcp/mod.rs`). -/
inductive Error where
  | NoTransactionIdAvailable
  | NotImplemented
  | Rejected (code : ErrorCode)
  | Busy
  | InvalidReturnData
  deriving DecidableEq, Repr

/-- AVRCP PDU ids (`avrcp::packets::Pdu`, module not under `src/`).  Modelled
from the spec: GetCapabilities=0x10, RegisterNotification=0x31,
SetAbsoluteVolume=0x50; the continuation pdus and GetElementAttributes carry
their standard ids, other pdus are carried numerically. -/
inductive Pdu where
  | GetCapabilities
  | GetElementAttributes
  | RegisterNotification
  | RequestContinuingResponse
  | AbortContinuingResponse
  | SetAbsoluteVolume
  | Other (id : Nat)
  deriving DecidableEq, Repr

def Pdu.toByte : Pdu → Nat
  | .GetCapabilities => 0x10
  | .GetElementAttributes => 0x20
  | .RegisterNotification => 0x31
  | .RequestContinuingResponse => 0x40
  | .AbortContinuingResponse => 0x41
  | .SetAbsoluteVolume => 0x50
  | .Other n => n

/-- One slot of the 16-entry transaction table (`TransactionState` in
`src/avrcp/mod.rs`).  Senders and event parsers are opaque identifiers. -/
inductive TransactionState where
  | Empty
  | PendingPassThrough (sender : Nat)
  | PendingVendorDependent (code : CommandCode) (sender : Nat)
  | PendingNotificationRegistration (parser : Nat) (sender : Nat)
  | WaitingForChange (parser : Nat)
  deriving DecidableEq, Repr

instance : Inhabited TransactionState := ⟨.Empty⟩

/-- `TransactionState::is_free`. -/
def TransactionState.is_free : TransactionState → Bool
  | .Empty => true
  | _ => false

/-- `TransactionState::take_sender`: `std::mem::take` leaves `Empty`, except that
a `PendingNotificationRegistration` slot is re-armed as `WaitingForChange`.  The
source's `unreachable!()` arm (never hit: every call site first matches the slot)
is modelled as returning sender 0 with the slot unchanged. -/
def TransactionState.take_sender : TransactionState → TransactionState × Nat
  | .PendingPassThrough sender => (.Empty, sender)
  | .PendingVendorDependent _ sender => (.Empty, sender)
  | .PendingNotificationRegistration parser sender => (.WaitingForChange parser, sender)
  | t => (t, 0)

/-- Result delivered on a user command's response sender
(`Result<Bytes, avrcp::Error>`). -/
inductive Reply where
  | ok (payload : List Nat)
  | err (e : Error)
  deriving DecidableEq, Repr

/-- An application event (`avrcp::session::Event`).  `Parsed` stands for the
result of running an opaque `EventParser` on the remaining parameter bytes. -/
inductive Event where
  | VolumeChanged (level : ℚ)
  | Parsed (parser : Nat) (params : List Nat)
  deriving DecidableEq, Repr

/-- AV/C opcodes (`avc::Opcode`, module not under `src/`; listed in spec §3). -/
inductive Opcode where
  | VendorDependent
  | UnitInfo
  | SubunitInfo
  | PassThrough
  deriving DecidableEq, Repr

/-- Observable effects of the AVRCP session loop: vendor-dependent sends
(`State::send_avrcp`), plain AV/C sends (`State::send_avc`, parameters already
serialized to bytes), deliveries on response senders, and application events
(`State::trigger_event`; the bounded-mailbox drop is modelled as the emission
attempt itself). -/
inductive Output where
  | sentAvrcp (label : Nat) (cmd : CommandCode) (pdu : Pdu) (params : List Nat)
  | sentAvc (label : Nat) (ctype : CommandCode) (opcode : Opcode) (params : List Nat)
  | delivered (sender : Nat) (reply : Reply)
  | event (e : Event)
  deriving DecidableEq, Repr

/-- The mutable part of `State` in `src/avrcp/mod.rs` that the claims concern:
the current absolute volume, the 16-slot transaction table, and the peer
notification registry (`BTreeMap<EventId, u8>`, modelled as a key-unique
association list). -/
structure State where
  volume : Nat
  outstanding_transactions : List TransactionState
  registered_notifications : List (EventId × Nat)
  deriving DecidableEq, Repr

def slotAt (s : State) (label : Nat) : TransactionState :=
  s.outstanding_transactions.getD label .Empty

def setSlot (s : State) (label : Nat) (t : TransactionState) : State :=
  { s with outstanding_transactions := s.outstanding_transactions.set label t }

def regLookup (reg : List (EventId × Nat)) (e : EventId) : Option Nat :=
  (reg.find? (fun p => p.1 == e)).map (·.2)

def regRemove (reg : List (EventId × Nat)) (e : EventId) : List (EventId × Nat) :=
  reg.filter (fun p => p.1 != e)

def regContains (reg : List (EventId × Nat)) (e : EventId) : Bool :=
  reg.any (fun p => p.1 == e)

def regInsert (reg : List (EventId × Nat)) (e : EventId) (v : Nat) : List (EventId × Nat) :=
  regRemove reg e ++ [(e, v)]

def MAX_VOLUME : Nat := 0x7f

/-- `(volume.min(1.0).max(0.0) * MAX_VOLUME as f32).round() as u8` from the
`UpdatedVolume` arm of `State::run`, with `f32` modelled as exact rational
arithmetic.  `f32::round` rounds half away from zero, which on the clamped
nonnegative range agrees with `round : ℚ → ℤ` (half up); the `as u8` cast is the
identity on the resulting range. -/
def quantizeVolume (v : ℚ) : Nat :=
  (round (max (min v 1) 0 * (MAX_VOLUME : ℚ))).toNat

/-- Big-endian byte encoding of a `u32` (the notification interval). -/
def encodeU32 (n : Nat) : List Nat :=
  [n / 2 ^ 24 % 256, n / 2 ^ 16 % 256, n / 2 ^ 8 % 256, n % 256]

/-- `BLUETOOTH_SIG_COMPANY_ID = 0x001958` (spec §4.3) as big-endian `u24`
bytes. -/
def companyIdBytes : List Nat := [0x00, 0x19, 0x58]

/-- User commands received from the `AvrcpSession` command channel
(`avrcp::session::AvrcpCommand`; the variant shapes are visible at the match in
`State::run`). -/
inductive AvrcpCommand where
  | PassThrough (op : Nat) (buttonState : Nat) (sender : Nat)
  | VendorSpecific (cmd : CommandCode) (pdu : Pdu) (params : List Nat) (sender : Nat)
  | RegisterNotification (event : EventId) (interval : Nat) (parser : Nat) (sender : Nat)
  | UpdatedVolume (volume : ℚ)

/-- `AvrcpCommand::into_response_sender` (defined in the absent `session`
module).  Modelled from the spec and the variant shapes: each command that
carries a response sender yields it; `UpdatedVolume` has none. -/
def AvrcpCommand.into_response_sender : AvrcpCommand → Option Nat
  | .PassThrough _ _ sender => some sender
  | .VendorSpecific _ _ _ sender => some sender
  | .RegisterNotification _ _ _ sender => some sender
  | .UpdatedVolume _ => none

/-- The user-command arm (`Either2::B(Some(cmd))`) of `State::run`: scan the
transaction table for the first `Empty` slot; with none, fail the command with
`NoTransactionIdAvailable` on its response sender (if it has one) and continue;
otherwise dispatch.  Sends are modelled as succeeding, so the `.then(...)` slot
installation always runs. -/
def handleUserCommand (s : State) (cmd : AvrcpCommand) : State × List Output :=
  match s.outstanding_transactions.findIdx? TransactionState.is_free with
  | none =>
    match cmd.into_response_sender with
    | some sender => (s, [.delivered sender (.err .NoTransactionIdAvailable)])
    | none => (s, [])
  | some transaction =>
    match cmd with
    | .PassThrough op st sender =>
      (setSlot s transaction (.PendingPassThrough sender),
       [.sentAvc transaction .Control .PassThrough [op, st, 0]])
    | .VendorSpecific c pdu params sender =>
      (setSlot s transaction (.PendingVendorDependent c sender),
       [.sentAvrcp transaction c pdu params])
    | .RegisterNotification event interval parser sender =>
      (setSlot s transaction (.PendingNotificationRegistration parser sender),
       [.sentAvrcp transaction .Notify .RegisterNotification (event.toByte :: encodeU32 interval)])
    | .UpdatedVolume v =>
      let new_volume := quantizeVolume v
      if new_volume != s.volume then
        let s1 : State := { s with volume := new_volume }
        match regLookup s1.registered_notifications .VolumeChanged with
        | some t =>
          ({ s1 with registered_notifications := regRemove s1.registered_notifications .VolumeChanged },
           [.sentAvrcp t .Changed .RegisterNotification [EventId.VolumeChanged.toByte, new_volume]])
        | none => (s1, [])
      else (s, [])

/-- The user-command side of the `State::run` loop over a finite stream of
commands: the loop never exits on a failed allocation (it `continue`s), only
when the channel is exhausted. -/
def runCommands (s : State) : List AvrcpCommand → State × List Output
  | [] => (s, [])
  | c :: cs =>
    let r := handleUserCommand s c
    let rest := runCommands r.1 cs
    (rest.1, r.2 ++ rest.2)

/-- Vendor-dependent PDU assembly outcome (`avrcp::packets::CommandStatus`,
module not under `src/`): a completely assembled pdu with its parameter bytes,
or a fragment still awaiting continuations. -/
inductive CommandStatus where
  | Complete (pdu : Pdu) (params : List Nat)
  | Incomplete (pdu : Pdu)
  deriving DecidableEq, Repr

/-- Modelled from the spec: decoding an `avrcp::ErrorCode` byte (§7 gives the
values 0x00..0x03); other bytes fail to parse. -/
def decodeErrorCode (b : Nat) : Option ErrorCode :=
  if b = 0x00 then some .InvalidCommand
  else if b = 0x01 then some .InvalidParameter
  else if b = 0x02 then some .ParameterContentError
  else if b = 0x03 then some .InternalError
  else none

/-- `parameters.read_be().unwrap_or(ErrorCode::ParameterContentError)` used when
a Rejected response carries an error code. -/
def readErrorCodeOr (params : List Nat) : ErrorCode :=
  match params with
  | b :: _ => (decodeErrorCode b).getD .ParameterContentError
  | [] => .ParameterContentError

/-- The vendor-dependent response path of `State::process_message`
(`src/avrcp/mod.rs`): the `response_assembler` (absent `packets` module) has
produced `status`; on a complete pdu the transaction slot named by the message's
`transaction_label` decides how the response is resolved, and on an incomplete
fragment a `RequestContinuingResponse` is sent back on the same label. -/
def processResponseStatus (s : State) (label : Nat) (ctype : CommandCode) :
    CommandStatus → State × List Output
  | .Incomplete pdu =>
    (s, [.sentAvrcp label .Control .RequestContinuingResponse [pdu.toByte]])
  | .Complete _pdu params =>
    match slotAt s label with
    | .PendingVendorDependent .Control _ =>
      let reply : Option Reply :=
        match ctype with
        | .NotImplemented => some (.err .NotImplemented)
        | .Accepted => some (.ok params)
        | .Rejected => some (.err (.Rejected (readErrorCodeOr params)))
        | .Interim => none
        | _ => some (.err .InvalidReturnData)
      match reply with
      | none => (s, [])
      | some r =>
        let t := (slotAt s label).take_sender
        (setSlot s label t.1, [.delivered t.2 r])
    | .PendingVendorDependent .Status _ =>
      let reply : Reply :=
        match ctype with
        | .NotImplemented => .err .NotImplemented
        | .Implemented => .ok params
        | .Rejected => .err (.Rejected (readErrorCodeOr params))
        | .InTransition => .err .Busy
        | _ => .err .InvalidReturnData
      let t := (slotAt s label).take_sender
      (setSlot s label t.1, [.delivered t.2 reply])
    | .PendingVendorDependent _ _ =>
      (setSlot s label .Empty, [])
    | .PendingNotificationRegistration _ _ =>
      let reply : Reply :=
        match ctype with
        | .NotImplemented => .err .NotImplemented
        | .Rejected => .err (.Rejected (readErrorCodeOr params))
        | .Interim => .ok params
        | .Changed => .err .InvalidReturnData
        | _ => .err .InvalidReturnData
      let t := (slotAt s label).take_sender
      (setSlot s label t.1, [.delivered t.2 reply])
    | .WaitingForChange parser =>
      let s1 := setSlot s label .Empty
      if ctype = .Changed then
        match params with
        | _eventByte :: rest => (s1, [.event (.Parsed parser rest)])
        | [] => (s1, [])
      else (s1, [])
    | _ => (s, [])

/-- `State::process_command` (`src/avrcp/mod.rs`): inbound peer commands by pdu.
Returns the new state, the outputs, and the `ErrorCode` when the command is
rejected.  Truncated or trailing parameter bytes (`read_be`/`finish` failures of
the absent `instructor` crate) are modelled from the spec §7 as
ParameterContentError. -/
def process_command (s : State) (transaction : Nat) (pdu : Pdu) (params : List Nat) :
    State × List Output × Option ErrorCode :=
  match pdu with
  | .GetCapabilities =>
    match params with
    | [capability] =>
      if capability = 0x02 then
        (s, [.sentAvrcp transaction .Implemented pdu ([0x02, 1] ++ companyIdBytes)], none)
      else if capability = 0x03 then
        (s, [.sentAvrcp transaction .Implemented pdu [0x03, 1, EventId.VolumeChanged.toByte]], none)
      else (s, [], some .InvalidParameter)
    | _ => (s, [], some .ParameterContentError)
  | .RegisterNotification =>
    match params with
    | e :: i1 :: i2 :: i3 :: i4 :: rest =>
      if rest.isEmpty then
        let event := decodeEventId e
        let _interval := ((i1 * 256 + i2) * 256 + i3) * 256 + i4
        if regContains s.registered_notifications event then
          (s, [], some .InternalError)
        else if event = .VolumeChanged then
          ({ s with registered_notifications := regInsert s.registered_notifications event transaction },
           [.sentAvrcp transaction .Interim pdu [event.toByte, s.volume]], none)
        else (s, [], some .InvalidParameter)
      else (s, [], some .ParameterContentError)
    | _ => (s, [], some .ParameterContentError)
  | .RequestContinuingResponse => (s, [], none)
  | .AbortContinuingResponse => (s, [], none)
  | .SetAbsoluteVolume =>
    match params with
    | v :: rest =>
      let s1 : State := { s with volume := min MAX_VOLUME v }
      if rest.isEmpty then
        (s1,
         [.sentAvrcp transaction .Accepted pdu [s1.volume],
          .event (.VolumeChanged ((s1.volume : ℚ) / (MAX_VOLUME : ℚ)))], none)
      else (s1, [], some .ParameterContentError)
    | [] => (s, [], some .ParameterContentError)
  | _ => (s, [], some .InvalidCommand)

/-- The vendor-dependent command path of `State::process_message`: a completely
assembled command pdu is dispatched to `process_command`; on error a `Rejected`
response carrying the error code is sent on the same label; incomplete fragments
do nothing. -/
def processCommandStatus (s : State) (label : Nat) : CommandStatus → State × List Output
  | .Complete pdu params =>
    let r := process_command s label pdu params
    match r.2.2 with
    | some e => (r.1, r.2.1 ++ [.sentAvrcp label .Rejected pdu [e.toByte]])
    | none => (r.1, r.2.1)
  | .Incomplete _ => (s, [])

end Avrcp

namespace Avctp

/-- `avctp::MessageType` (`src/avctp/packets.rs`, values listed in spec §6). -/
inductive MessageType where
  | Command
  | Response
  | ResponseInvalidProfile
  | ResponseNotImplemented
  deriving DecidableEq, Repr

/-- A completely assembled AVCTP message (`avctp::Message`). -/
structure Message where
  transaction_label : Nat
  message_type : MessageType
  profile_id : Nat
  data : List Nat
  deriving DecidableEq, Repr

/-- The response synthesized by `Avctp::read` for a command with a profile id
outside the accepted set: same label, same profile id, type
ResponseInvalidProfile, empty data. -/
def invalidProfileResponse (m : Message) : Message :=
  { transaction_label := m.transaction_label
    message_type := .ResponseInvalidProfile
    profile_id := m.profile_id
    data := [] }

/-- `Avctp::read` (`src/avctp/mod.rs`) over the stream of completely assembled
messages produced by the per-channel assembler (the byte-level assembler lives
in the absent `packets` module).  Returns the messages sent back on the channel
during this call and the message delivered upstream (`None` when the channel is
exhausted, mirroring a closed channel). -/
def read (profile_ids : List Nat) : List Message → List Message × Option Message
  | [] => ([], none)
  | m :: rest =>
    if m.profile_id ∈ profile_ids then ([], some m)
    else
      let sent := if m.message_type = .Command then [invalidProfileResponse m] else []
      let r := read profile_ids rest
      (sent ++ r.1, r.2)

end Avctp

namespace AvrcpServer

/-- The shared admission state of `Avrcp` (`src/avrcp/mod.rs`): the set of
connection handles with an installed session (`existing_connections`), plus the
handles whose session loop (`State::run`) is currently running. -/
structure ServerState where
  existing_connections : List Nat
  sessions : List Nat
  deriving DecidableEq, Repr

/-- The events driving `Avrcp::handle_control` and session termination.  A new
control channel arrives with the outcomes of `accept_connection` and
`configure` as oracles; `sessionEnd` is the session loop returning, after which
the handle is removed from `existing_connections`. -/
inductive ServerEvent where
  | newChannel (handle : Nat) (accept_ok : Bool) (configure_ok : Bool)
  | sessionEnd (handle : Nat)
  deriving DecidableEq, Repr

inductive ServerOutput where
  | rejectedConnection (handle : Nat)
  | acceptedConnection (handle : Nat)
  | handlerInvoked (handle : Nat)
  deriving DecidableEq, Repr

/-- One step of `Avrcp::handle_control` / session termination.  A handle already
in `existing_connections` (the `BTreeSet::insert` returning false) is rejected
with no further effect.  Otherwise the handle is inserted; if
`accept_connection` fails the spawned task never starts, if `configure` fails
the task returns early — in both cases the handle stays inserted (the source
only removes it after `state.run`).  On success the session handler is invoked
and the session loop starts.  Each lock-protected mutation is modelled as
atomic. -/
def serverStep (s : ServerState) : ServerEvent → ServerState × List ServerOutput
  | .newChannel h accept_ok configure_ok =>
    if h ∈ s.existing_connections then (s, [.rejectedConnection h])
    else
      let s1 : ServerState := { s with existing_connections := h :: s.existing_connections }
      if accept_ok then
        if configure_ok then
          ({ s1 with sessions := h :: s1.sessions },
           [.acceptedConnection h, .handlerInvoked h])
        else (s1, [.acceptedConnection h])
      else (s1, [])
  | .sessionEnd h =>
    if h ∈ s.sessions then
      ({ existing_connections := s.existing_connections.erase h, sessions := s.sessions.erase h }, [])
    else (s, [])

def serverRun (s : ServerState) : List ServerEvent → ServerState × List ServerOutput
  | [] => (s, [])
  | e :: es =>
    let r := serverStep s e
    let rest := serverRun r.1 es
    (rest.1, r.2 ++ rest.2)

def serverInit : ServerState := ⟨[], []⟩

end AvrcpServer

namespace Avdtp

/-- `avdtp::error::ErrorCode` (module not under `src/`).  Modelled from the
spec: §4.2 lists the reject codes; §8 scenario 2 pins BadState = 0x31. -/
inductive ErrorCode where
  | BadHeaderFormat
  | BadLength
  | BadAcpSeid
  | SepInUse
  | BadState
  | BadServiceCategory
  | InvalidCapabilities
  | NotSupportedCommand
  deriving DecidableEq, Repr

/-- `avdtp::packets::MessageType` (values listed in spec §6). -/
inductive MessageType where
  | Command
  | GeneralReject
  | ResponseAccept
  | ResponseReject
  deriving DecidableEq, Repr

/-- `avdtp::packets::SignalIdentifier`. -/
inductive SignalIdentifier where
  | Discover
  | GetCapabilities
  | GetAllCapabilities
  | SetConfiguration
  | GetConfiguration
  | Reconfigure
  | Open
  | Start
  | Close
  | Suspend
  | Abort
  | SecurityControl
  | DelayReport
  | Unknown
  deriving DecidableEq, Repr

/-- A capability entry (`avdtp::capabilities::Capability`, module not under
`src/`).  Modelled from the spec §3: a tagged variant over service categories,
carrying category-specific payload bytes; the category is kept numeric. -/
structure Capability where
  category : Nat
  payload : List Nat
  deriving DecidableEq, Repr

/-- Modelled from the spec: basic capabilities are the subset without extended
parameters (§3); DelayReporting (category 8) is the extended one in the listed
category set. -/
def Capability.is_basic (c : Capability) : Bool := c.category != 8

/-- Modelled from the spec: the capability-list wire format handled by the
absent `instructor`-derived parser — each entry is a category byte, a length
byte and `length` payload bytes; short data is a length error. -/
def parseCapabilities : List Nat → Except ErrorCode (List Capability)
  | [] => .ok []
  | [_] => .error .BadLength
  | c :: n :: rest =>
    if n ≤ rest.length then
      match parseCapabilities (rest.drop n) with
      | .ok caps => .ok (⟨c, rest.take n⟩ :: caps)
      | .error e => .error e
    else .error .BadLength
termination_by l => l.length
decreasing_by
  simp only [List.length_drop, List.length_cons]
  omega

def encodeCapability (c : Capability) : List Nat :=
  c.category :: c.payload.length :: c.payload

/-- `avdtp::endpoint::LocalEndpoint` (module not under `src/`); fields from
spec §3.  `tsep` and `media_type` are kept numeric. -/
structure LocalEndpoint where
  seid : Nat
  in_use : Bool
  media_type : Nat
  tsep : Nat
  capabilities : List Capability
  deriving DecidableEq, Repr

/-- `LocalEndpoint::as_stream_endpoint`: the two Discover bytes
`{seid<<2 | in_use<<1, media_type<<4 | tsep<<3}` (spec §4.2). -/
def LocalEndpoint.as_stream_endpoint (ep : LocalEndpoint) : List Nat :=
  [ep.seid * 4 + (if ep.in_use then 2 else 0), ep.media_type * 16 + ep.tsep * 8]

/-- Stream endpoint lifecycle states (spec §3; streams are created in
Configured). -/
inductive StreamState where
  | Idle
  | Configured
  | Opening
  | Open
  | Streaming
  | Closing
  deriving DecidableEq, Repr

/-- `avdtp::endpoint::Stream` (module not under `src/`); fields from spec §3.
The transport channel and `StreamHandler` are not modelled: no claim observes
them. -/
structure Stream where
  local_endpoint : Nat
  remote_seid : Nat
  state : StreamState
  capabilities : List Capability
  deriving DecidableEq, Repr

instance : Inhabited Stream := ⟨⟨0, 0, .Idle, []⟩⟩

/-- Modelled from the spec: `Stream::new` creates a stream in Configured for the
endpoint's seid (§4.2 SetConfiguration row; the spec describes no failure of the
construction itself). -/
def Stream.new (ep : LocalEndpoint) (int_seid : Nat) (caps : List Capability) :
    Except ErrorCode Stream :=
  .ok { local_endpoint := ep.seid, remote_seid := int_seid, state := .Configured,
        capabilities := caps }

/-- Modelled from the spec: `Stream::start` transitions Open → Streaming (§4.2
Start row, state diagram); any other state is a BadState error. -/
def Stream.start (st : Stream) : Except ErrorCode Stream :=
  match st.state with
  | .Open => .ok { st with state := .Streaming }
  | _ => .error .BadState

/-- Modelled from the spec: `Stream::stop` (Suspend) transitions
Streaming → Open (§4.2 Suspend row). -/
def Stream.stop (st : Stream) : Except ErrorCode Stream :=
  match st.state with
  | .Streaming => .ok { st with state := .Open }
  | _ => .error .BadState

/-- Modelled from the spec: `Stream::close` transitions Open or Streaming →
Closing (state diagram). -/
def Stream.close (st : Stream) : Except ErrorCode Stream :=
  match st.state with
  | .Open | .Streaming => .ok { st with state := .Closing }
  | _ => .error .BadState

/-- Modelled from the spec: `Stream::set_to_opening` transitions
Configured → Opening (§4.2 Open row). -/
def Stream.set_to_opening (st : Stream) : Except ErrorCode Stream :=
  match st.state with
  | .Configured => .ok { st with state := .Opening }
  | _ => .error .BadState

/-- Modelled from the spec: `Stream::is_opening` is true iff the state is
Opening (§3). -/
def Stream.is_opening (st : Stream) : Bool := st.state == .Opening

/-- Modelled from the spec: `Stream::get_capabilities` returns the stream's
current capabilities (§4.2 GetConfiguration row). -/
def Stream.get_capabilities (st : Stream) : Except ErrorCode (List Capability) :=
  .ok st.capabilities

/-- Modelled from the spec: `Stream::reconfigure` delegates the new capability
list to the stream (§4.2 Reconfigure row gives no further detail). -/
def Stream.reconfigure (st : Stream) (caps : List Capability) (_ep : LocalEndpoint) :
    Except ErrorCode Stream :=
  .ok { st with capabilities := caps }

/-- An inbound signaling message after reassembly (`avdtp::packets::SignalMessage`
with `data` as bytes). -/
structure SignalMessage where
  transaction_label : Nat
  message_type : MessageType
  signal_identifier : SignalIdentifier
  data : List Nat
  deriving DecidableEq, Repr

/-- The body of a reply built by `SignalMessageResponse`: an accept with payload
bytes, a reject with the error-context bytes and the code (the source writes
`ctx` then `reason` into the data), or a general reject. -/
inductive SignalData where
  | accept (payload : List Nat)
  | reject (ctx : List Nat) (code : ErrorCode)
  | general
  deriving DecidableEq, Repr

structure SignalResponse where
  transaction_label : Nat
  signal_identifier : SignalIdentifier
  data : SignalData
  deriving DecidableEq, Repr

/-- The message type a `SignalResponse` is serialized with. -/
def SignalResponse.message_type (r : SignalResponse) : MessageType :=
  match r.data with
  | .accept _ => .ResponseAccept
  | .reject _ _ => .ResponseReject
  | .general => .GeneralReject

/-- The session state of `AvdtpSession` (`src/avdtp/mod.rs`) that the signaling
dispatcher touches: local endpoints, live streams, and whether the Open
rendezvous slot (`channel_sender`/`channel_receiver`) is installed. -/
structure AvdtpSession where
  local_endpoints : List LocalEndpoint
  streams : List Stream
  channel_receiver_installed : Bool
  deriving DecidableEq, Repr

/-- `AvdtpSession::get_endpoint`. -/
def AvdtpSession.get_endpoint (s : AvdtpSession) (seid : Nat) :
    Except ErrorCode LocalEndpoint :=
  match s.local_endpoints.find? (fun ep => ep.seid == seid) with
  | some ep => .ok ep
  | none => .error .BadAcpSeid

/-- The error produced by `AvdtpSession::get_stream` when no stream has the
seid: BadState when some local endpoint has the seid, BadAcpSeid otherwise. -/
def AvdtpSession.get_stream_error (s : AvdtpSession) (seid : Nat) : ErrorCode :=
  if s.local_endpoints.any (fun ep => ep.seid == seid) then .BadState else .BadAcpSeid

def AvdtpSession.streamIdx (s : AvdtpSession) (seid : Nat) : Option Nat :=
  s.streams.findIdx? (fun st => st.local_endpoint == seid)

/-- `AvdtpSession::get_stream` combined with the mutation performed through the
returned `&mut Stream`: find the stream with the seid and update it in place, or
fail with `get_stream_error`. -/
def AvdtpSession.modifyStream (s : AvdtpSession) (seid : Nat)
    (f : Stream → Except ErrorCode Stream) : Except ErrorCode AvdtpSession :=
  match s.streamIdx seid with
  | none => .error (s.get_stream_error seid)
  | some i =>
    match f (s.streams.getD i default) with
    | .ok st => .ok { s with streams := s.streams.set i st }
    | .error e => .error e

/-- `Vec::swap_remove(i)`: replace element `i` with the last element and pop. -/
def swapRemove (l : List Stream) (i : Nat) : List Stream :=
  match l.getLast? with
  | none => l
  | some last => (l.set i last).dropLast

/-- `data.read_be::<u8>()` on the signaling payload; reading from an empty
buffer is a length error (the absent `instructor` error is modelled from the
spec §7 framing-error taxonomy as BadLength). -/
def readU8 (data : List Nat) : Except ErrorCode (Nat × List Nat) :=
  match data with
  | [] => .error .BadLength
  | b :: rest => .ok (b, rest)

/-- `data.finish()` — require no trailing bytes (spec §4.2 GetCapabilities
row). -/
def finish (data : List Nat) : Except ErrorCode Unit :=
  match data with
  | [] => .ok ()
  | _ :: _ => .error .BadLength

/-- `SignalMessageResponse::try_accept`: on success a ResponseAccept with the
payload written by the closure (and the session as the closure left it); on
error a ResponseReject whose data is the error-context bytes followed by the
code.  Used by the arms whose session mutation is all-or-nothing, so the
pre-closure session is the one kept on error. -/
def tryAccept (label : Nat) (sig : SignalIdentifier) (ctx : List Nat)
    (s : AvdtpSession) (r : Except ErrorCode (List Nat × AvdtpSession)) :
    AvdtpSession × SignalResponse :=
  match r with
  | .ok (payload, s') => (s', ⟨label, sig, .accept payload⟩)
  | .error e => (s, ⟨label, sig, .reject ctx e⟩)

/-- The Start arm's `while { .. !data.is_empty() } {}` loop: read a seid byte,
require no trailing bytes (`data.finish()?`), set the error context to the seid,
look up the stream and `start()` it; repeat while bytes remain.  The session is
threaded so mutations made before a failure survive it.  The fuel argument only
bounds the recursion; `data.length + 1` can never run out because each
iteration consumes at least one byte. -/
def startLoop : Nat → AvdtpSession → List Nat → Nat →
    Except (Nat × ErrorCode × AvdtpSession) AvdtpSession
  | 0, s, _, ctx => .error (ctx, .BadLength, s)
  | fuel + 1, s, data, ctx =>
    match readU8 data with
    | .error e => .error (ctx, e, s)
    | .ok (b, rest) =>
      let seid := b / 4
      match finish rest with
      | .error e => .error (ctx, e, s)
      | .ok () =>
        match s.modifyStream seid Stream.start with
        | .error e => .error (seid, e, s)
        | .ok s' => if rest.isEmpty then .ok s' else startLoop fuel s' rest seid

/-- The Suspend arm's loop, the mirror of `startLoop` with `Stream::stop`. -/
def suspendLoop : Nat → AvdtpSession → List Nat → Nat →
    Except (Nat × ErrorCode × AvdtpSession) AvdtpSession
  | 0, s, _, ctx => .error (ctx, .BadLength, s)
  | fuel + 1, s, data, ctx =>
    match readU8 data with
    | .error e => .error (ctx, e, s)
    | .ok (b, rest) =>
      let seid := b / 4
      match finish rest with
      | .error e => .error (ctx, e, s)
      | .ok () =>
        match s.modifyStream seid Stream.stop with
        | .error e => .error (seid, e, s)
        | .ok s' => if rest.isEmpty then .ok s' else suspendLoop fuel s' rest seid

/-- `AvdtpSession::handle_signal_message` (`src/avdtp/mod.rs`): dispatch a
reassembled signaling command and produce the reply plus the mutated session.
The source's `assert_eq!(msg.message_type, MessageType::Command)` is a
precondition of every call site (the assembler only delivers commands); the
model ignores the field like the source does after the assert. -/
def handle_signal_message (s : AvdtpSession) (msg : SignalMessage) :
    AvdtpSession × SignalResponse :=
  let label := msg.transaction_label
  let data := msg.data
  match msg.signal_identifier with
  | .Discover =>
    tryAccept label .Discover [] s (do
      let _ ← finish data
      .ok (s.local_endpoints.flatMap LocalEndpoint.as_stream_endpoint, s))
  | .GetCapabilities =>
    tryAccept label .GetCapabilities [] s (do
      let (b, rest) ← readU8 data
      let _ ← finish rest
      let ep ← s.get_endpoint (b / 4)
      .ok ((ep.capabilities.filter Capability.is_basic).flatMap encodeCapability, s))
  | .GetAllCapabilities =>
    tryAccept label .GetAllCapabilities [] s (do
      let (b, rest) ← readU8 data
      let _ ← finish rest
      let ep ← s.get_endpoint (b / 4)
      .ok (ep.capabilities.flatMap encodeCapability, s))
  | .SetConfiguration =>
    tryAccept label .SetConfiguration [0x00] s (do
      let (b1, r1) ← readU8 data
      let (b2, r2) ← readU8 r1
      let caps ← parseCapabilities r2
      let acp_seid := b1 / 4
      let int_seid := b2 / 4
      let ep ← s.get_endpoint acp_seid
      if s.streams.all (fun st => st.local_endpoint != acp_seid) then do
        let st ← Stream.new ep int_seid caps
        .ok ([], { s with streams := s.streams ++ [st] })
      else .error .BadState)
  | .GetConfiguration =>
    tryAccept label .GetConfiguration [] s (do
      let (b, rest) ← readU8 data
      let _ ← finish rest
      let seid := b / 4
      match s.streams.find? (fun st => st.local_endpoint == seid) with
      | none => .error (s.get_stream_error seid)
      | some st => do
        let caps ← st.get_capabilities
        .ok (caps.flatMap encodeCapability, s))
  | .Reconfigure =>
    tryAccept label .Reconfigure [0x00] s (do
      let (b, r1) ← readU8 data
      let caps ← parseCapabilities r1
      let acp_seid := b / 4
      match s.local_endpoints.find? (fun ep => ep.seid == acp_seid) with
      | none => .error .BadAcpSeid
      | some ep =>
        match s.streamIdx acp_seid with
        | none => .error .BadState
        | some i => do
          let st ← (s.streams.getD i default).reconfigure caps ep
          .ok ([], { s with streams := s.streams.set i st }))
  | .Open =>
    tryAccept label .Open [] s (do
      let (b, rest) ← readU8 data
      let _ ← finish rest
      let s' ← s.modifyStream (b / 4) Stream.set_to_opening
      .ok ([], { s' with channel_receiver_installed := true }))
  | .Start =>
    (match startLoop (data.length + 1) s data 0x00 with
     | .ok s' => (s', ⟨label, .Start, .accept []⟩)
     | .error (ctx, e, s') => (s', ⟨label, .Start, .reject [ctx] e⟩))
  | .Close =>
    tryAccept label .Close [] s (do
      let (b, rest) ← readU8 data
      let _ ← finish rest
      let s' ← s.modifyStream (b / 4) Stream.close
      .ok ([], s'))
  | .Suspend =>
    (match suspendLoop (data.length + 1) s data 0x00 with
     | .ok s' => (s', ⟨label, .Suspend, .accept []⟩)
     | .error (ctx, e, s') => (s', ⟨label, .Suspend, .reject [ctx] e⟩))
  | .Abort =>
    tryAccept label .Abort [] s (do
      let (b, rest) ← readU8 data
      let _ ← finish rest
      match s.streamIdx (b / 4) with
      | some i => .ok ([], { s with streams := swapRemove s.streams i })
      | none => .ok ([], s))
  | .SecurityControl => (s, ⟨label, .SecurityControl, .reject [] .NotSupportedCommand⟩)
  | .Unknown => (s, ⟨label, .Unknown, .general⟩)
  | .DelayReport => (s, ⟨label, .DelayReport, .reject [] .NotSupportedCommand⟩)

end Avdtp

/-! Claim theorems. -/

open Avrcp Avctp Avdtp AvrcpServer

/-- C1 (amended): for every inbound vendor-dependent response whose transaction
slot is `PendingNotificationRegistration` and whose ctype is NotImplemented or
Rejected, the waiting response sender is given an `Err` and the transaction slot
becomes `WaitingForChange parser` (not `Empty`: `take_sender` re-arms a
notification-registration slot unconditionally). -/
theorem C1_notification_rejection_rearms_slot
    (s : Avrcp.State) (label parser sender : Nat) (pdu : Pdu)
    (params : List Nat) (ctype : CommandCode)
    (hslot : slotAt s label = .PendingNotificationRegistration parser sender)
    (hct : ctype = .NotImplemented ∨ ctype = .Rejected) :
    processResponseStatus s label ctype (.Complete pdu params) =
      (setSlot s label (.WaitingForChange parser),
       [.delivered sender (.err (if ctype = .NotImplemented then .NotImplemented
          else .Rejected (readErrorCodeOr params)))]) := by
  unfold processResponseStatus
  rw [hslot]
  rcases hct with h | h <;> subst h <;>
    simp [TransactionState.take_sender]

def c1State : Avrcp.State :=
  ⟨127, (List.replicate 16 .Empty).set 0 (.PendingNotificationRegistration 5 7), []⟩

/-- C1 counterexample: with slot 0 holding a pending notification registration,
a NotImplemented vendor response on label 0 delivers the `Err` but leaves the
slot `WaitingForChange 5`, not `Empty` as the claim states. -/
theorem C1_counterexample_slot_not_emptied :
    (processResponseStatus c1State 0 .NotImplemented
        (.Complete .RegisterNotification [])).2 =
      [.delivered 7 (.err .NotImplemented)] ∧
    slotAt (processResponseStatus c1State 0 .NotImplemented
        (.Complete .RegisterNotification [])).1 0 = .WaitingForChange 5 ∧
    slotAt (processResponseStatus c1State 0 .NotImplemented
        (.Complete .RegisterNotification [])).1 0 ≠ .Empty := by decide

/-- C1 witness: the amended theorem applied at the concrete state `c1State`. -/
theorem C1_witness :
    processResponseStatus c1State 0 .NotImplemented (.Complete .RegisterNotification []) =
      (setSlot c1State 0 (.WaitingForChange 5), [.delivered 7 (.err .NotImplemented)]) := by
  have h := C1_notification_rejection_rearms_slot c1State 0 5 7 .RegisterNotification []
    .NotImplemented (by decide) (Or.inl rfl)
  simpa using h

/-- C2: when a user command that carries a response sender (PassThrough,
VendorSpecific or RegisterNotification) arrives while every slot of the 16-entry
transaction table is non-Empty, the command fails immediately with
`NoTransactionIdAvailable` delivered on its sender, nothing is sent to the peer
(the only output is the delivery), and the session loop goes on processing the
remaining commands with an unchanged state. -/
theorem C2_transaction_table_exhaustion
    (s : Avrcp.State) (cmd : AvrcpCommand) (rest : List AvrcpCommand) (sender : Nat)
    (_hlen : s.outstanding_transactions.length = 16)
    (hfull : ∀ t ∈ s.outstanding_transactions, t.is_free = false)
    (hsender : cmd.into_response_sender = some sender) :
    handleUserCommand s cmd = (s, [.delivered sender (.err .NoTransactionIdAvailable)]) ∧
    runCommands s (cmd :: rest) =
      ((runCommands s rest).1,
       .delivered sender (.err .NoTransactionIdAvailable) :: (runCommands s rest).2) := by
  have hidx : s.outstanding_transactions.findIdx? TransactionState.is_free = none :=
    List.findIdx?_eq_none_iff.mpr hfull
  have h1 : handleUserCommand s cmd =
      (s, [.delivered sender (.err .NoTransactionIdAvailable)]) := by
    unfold handleUserCommand
    rw [hidx, hsender]
  exact ⟨h1, by simp only [runCommands, h1, List.singleton_append]⟩

def c2FullState : Avrcp.State := ⟨127, List.replicate 16 (.PendingPassThrough 0), []⟩

/-- C2 witness: the theorem applied to a concretely exhausted table and a
PassThrough command. -/
theorem C2_witness :
    handleUserCommand c2FullState (.PassThrough 68 0 9) =
      (c2FullState, [.delivered 9 (.err .NoTransactionIdAvailable)]) :=
  (C2_transaction_table_exhaustion c2FullState (.PassThrough 68 0 9) [] 9
    (by decide) (by decide) rfl).1

/-- C7: an Abort command carrying a seid byte is always answered with
ResponseAccept; the stream with that local seid, when present, is removed
(`Vec::swap_remove`), and the session is otherwise untouched whether or not any
such stream or endpoint exists. -/
theorem C7_abort_always_accepts (s : AvdtpSession) (label b : Nat) :
    handle_signal_message s ⟨label, .Command, .Abort, [b]⟩ =
      ((match s.streamIdx (b / 4) with
        | some i => { s with streams := swapRemove s.streams i }
        | none => s),
       ⟨label, .Abort, .accept []⟩) := by
  unfold handle_signal_message
  cases h : s.streamIdx (b / 4) <;>
    simp [tryAccept, readU8, finish, Bind.bind, Except.bind, h]

/-- C8: an inbound SetAbsoluteVolume with a single volume byte `v` stores
`min MAX_VOLUME v`, replies Accepted carrying the stored value, and emits
`Event::VolumeChanged (stored / MAX_VOLUME)` toward the application. -/
theorem C8_set_absolute_volume (s : Avrcp.State) (transaction v : Nat) :
    process_command s transaction .SetAbsoluteVolume [v] =
      ({ s with volume := min MAX_VOLUME v },
       [.sentAvrcp transaction .Accepted .SetAbsoluteVolume [min MAX_VOLUME v],
        .event (.VolumeChanged ((min MAX_VOLUME v : ℚ) / (MAX_VOLUME : ℚ)))],
       none) := by
  simp [process_command]

/-- Helper: anything `Avctp.read` delivers upstream has an accepted profile
id. -/
theorem Avctp.read_delivers_accepted (profile_ids : List Nat) :
    ∀ ms r, (Avctp.read profile_ids ms).2 = some r → r.profile_id ∈ profile_ids := by
  intro ms
  induction ms with
  | nil => intro r h; simp [Avctp.read] at h
  | cons m rest ih =>
    intro r h
    unfold Avctp.read at h
    by_cases hp : m.profile_id ∈ profile_ids
    · simp only [hp, if_pos] at h
      cases h
      exact hp
    · simp only [hp, if_neg, not_false_iff] at h
      exact ih r h

/-- C5: a completely assembled AVCTP message whose profile id is outside the
accepted set is answered — when it is a Command — with a ResponseInvalidProfile
carrying the same transaction label, the same profile id and empty data; the
message itself is never returned from `read` to the upstream caller (whatever is
returned has an accepted profile id) and reading continues with the rest of the
stream. -/
theorem C5_profile_filter
    (profile_ids : List Nat) (m : Avctp.Message) (rest : List Avctp.Message)
    (hm : m.profile_id ∉ profile_ids) :
    Avctp.read profile_ids (m :: rest) =
      ((if m.message_type = .Command then [Avctp.invalidProfileResponse m] else [])
         ++ (Avctp.read profile_ids rest).1,
       (Avctp.read profile_ids rest).2) ∧
    (Avctp.invalidProfileResponse m).transaction_label = m.transaction_label ∧
    (Avctp.invalidProfileResponse m).profile_id = m.profile_id ∧
    (Avctp.invalidProfileResponse m).data = [] ∧
    (∀ ms r, (Avctp.read profile_ids ms).2 = some r → r.profile_id ∈ profile_ids) ∧
    (Avctp.read profile_ids (m :: rest)).2 ≠ some m := by
  refine ⟨?_, rfl, rfl, rfl, Avctp.read_delivers_accepted profile_ids, ?_⟩
  · conv_lhs => rw [Avctp.read]
    simp [hm]
  · intro h
    exact hm (Avctp.read_delivers_accepted profile_ids (m :: rest) m h)

/-- C5 witness: the theorem applied to a command with profile id 0x1234 against
the accepted set containing only AV_REMOTE_CONTROL (0x110E). -/
theorem C5_witness :
    Avctp.read [0x110e] [⟨3, .Command, 0x1234, [1, 2]⟩] =
      ([Avctp.invalidProfileResponse ⟨3, .Command, 0x1234, [1, 2]⟩], none) ∧
    (Avctp.read [0x110e] [⟨3, .Command, 0x1234, [1, 2]⟩]).2 ≠
      some ⟨3, .Command, 0x1234, [1, 2]⟩ := by
  have h := C5_profile_filter [0x110e] ⟨3, .Command, 0x1234, [1, 2]⟩ [] (by decide)
  exact ⟨by simpa using h.1, h.2.2.2.2.2⟩

def c3Session : AvdtpSession :=
  ⟨[⟨1, false, 0, 1, []⟩, ⟨2, false, 0, 1, []⟩],
   [⟨1, 5, .Open, []⟩, ⟨2, 6, .Open, []⟩], false⟩

/-- C3: evaluation of the Start arm at the failing input.  With endpoints 1 and
2 and both streams in state Open, a Start command listing the two seids (payload
`[0x04, 0x08]`) is rejected with a length error and context byte 0x00 — the
`data.finish()?` inside the seid loop fails as soon as a second seid byte is
present, so no stream is started and the reject context is not the offending
seid.  A single-seid Start (payload `[0x04]`) does start stream 1, and when the
single seid's `start()` fails (stream still Configured) the reject context byte
is that seid, as the claim describes. -/
theorem C3_start_list_is_rejected :
    handle_signal_message c3Session ⟨0, .Command, .Start, [0x04, 0x08]⟩ =
      (c3Session, ⟨0, .Start, .reject [0x00] .BadLength⟩) ∧
    handle_signal_message c3Session ⟨0, .Command, .Start, [0x04]⟩ =
      ({ c3Session with streams := [⟨1, 5, .Streaming, []⟩, ⟨2, 6, .Open, []⟩] },
       ⟨0, .Start, .accept []⟩) ∧
    handle_signal_message ⟨[⟨1, false, 0, 1, []⟩], [⟨1, 5, .Configured, []⟩], false⟩
        ⟨0, .Command, .Start, [0x04]⟩ =
      (⟨[⟨1, false, 0, 1, []⟩], [⟨1, 5, .Configured, []⟩], false⟩,
       ⟨0, .Start, .reject [0x01] .BadState⟩) := by
  decide

/-- C4: a SetConfiguration command whose capability bytes parse: when no local
endpoint has the acceptor seid the reply is ResponseReject with BadAcpSeid; when
the endpoint exists but a stream for that seid already does, the reply is
ResponseReject with BadState; in both reject cases the error-context byte is
ServiceCategory::Unknown (0x00) and the session is unchanged; otherwise a new
stream in state Configured for that seid is appended and the reply is
ResponseAccept. -/
theorem C4_set_configuration
    (s : AvdtpSession) (label acpB intB : Nat) (capBytes : List Nat)
    (caps : List Capability)
    (hcaps : parseCapabilities capBytes = .ok caps) :
    (s.local_endpoints.find? (fun ep => ep.seid == acpB / 4) = none →
      handle_signal_message s ⟨label, .Command, .SetConfiguration, acpB :: intB :: capBytes⟩ =
        (s, ⟨label, .SetConfiguration, .reject [0x00] .BadAcpSeid⟩)) ∧
    (∀ ep, s.local_endpoints.find? (fun e => e.seid == acpB / 4) = some ep →
      s.streams.all (fun st => st.local_endpoint != acpB / 4) = false →
      handle_signal_message s ⟨label, .Command, .SetConfiguration, acpB :: intB :: capBytes⟩ =
        (s, ⟨label, .SetConfiguration, .reject [0x00] .BadState⟩)) ∧
    (∀ ep, s.local_endpoints.find? (fun e => e.seid == acpB / 4) = some ep →
      s.streams.all (fun st => st.local_endpoint != acpB / 4) = true →
      handle_signal_message s ⟨label, .Command, .SetConfiguration, acpB :: intB :: capBytes⟩ =
        ({ s with streams := s.streams ++ [⟨ep.seid, intB / 4, .Configured, caps⟩] },
         ⟨label, .SetConfiguration, .accept []⟩)) := by
  refine ⟨fun hep => ?_, fun ep hep hst => ?_, fun ep hep hst => ?_⟩
  · simp [handle_signal_message, tryAccept, readU8, AvdtpSession.get_endpoint, Stream.new,
      hcaps, hep, Bind.bind, Except.bind, Pure.pure, Except.pure]
  · simp [handle_signal_message, tryAccept, readU8, AvdtpSession.get_endpoint, Stream.new,
      hcaps, hep, hst, Bind.bind, Except.bind, Pure.pure, Except.pure]
  · simp [handle_signal_message, tryAccept, readU8, AvdtpSession.get_endpoint, Stream.new,
      hcaps, hep, hst, Bind.bind, Except.bind, Pure.pure, Except.pure]

def c4Session : AvdtpSession := ⟨[⟨1, false, 0, 1, []⟩], [], false⟩

/-- C4 witness: the accept branch of the theorem at a concrete session — a
SetConfiguration for endpoint 1 (acp byte 0x04, int byte 0x08, no capabilities)
creates the stream in Configured. -/
theorem C4_witness :
    handle_signal_message c4Session ⟨0, .Command, .SetConfiguration, [0x04, 0x08]⟩ =
      ({ c4Session with streams := [⟨1, 2, .Configured, []⟩] },
       ⟨0, .SetConfiguration, .accept []⟩) := by
  have h := (C4_set_configuration c4Session 0 0x04 0x08 [] [] (by simp [parseCapabilities])).2.2
    ⟨1, false, 0, 1, []⟩ (by decide) (by decide)
  simpa using h

/-- C10: for every signal that looks up a stream by seid (GetConfiguration,
Open, Start, Close, Suspend), when no stream exists for the seid the reply is a
reject whose code is `get_stream_error`: BadState when some local endpoint has
the seid, BadAcpSeid otherwise; the session is left unchanged (for Start and
Suspend the error-context byte is the seid). -/
theorem C10_missing_stream_error
    (s : AvdtpSession) (label b : Nat)
    (hno : ∀ st ∈ s.streams, ¬ st.local_endpoint = b / 4) :
    handle_signal_message s ⟨label, .Command, .GetConfiguration, [b]⟩ =
      (s, ⟨label, .GetConfiguration, .reject [] (s.get_stream_error (b / 4))⟩) ∧
    handle_signal_message s ⟨label, .Command, .Open, [b]⟩ =
      (s, ⟨label, .Open, .reject [] (s.get_stream_error (b / 4))⟩) ∧
    handle_signal_message s ⟨label, .Command, .Start, [b]⟩ =
      (s, ⟨label, .Start, .reject [b / 4] (s.get_stream_error (b / 4))⟩) ∧
    handle_signal_message s ⟨label, .Command, .Close, [b]⟩ =
      (s, ⟨label, .Close, .reject [] (s.get_stream_error (b / 4))⟩) ∧
    handle_signal_message s ⟨label, .Command, .Suspend, [b]⟩ =
      (s, ⟨label, .Suspend, .reject [b / 4] (s.get_stream_error (b / 4))⟩) ∧
    s.get_stream_error (b / 4) =
      (if s.local_endpoints.any (fun ep => ep.seid == b / 4) then .BadState
       else .BadAcpSeid) := by
  have hfind : s.streams.find? (fun st => st.local_endpoint == b / 4) = none := by
    rw [List.find?_eq_none]
    intro st hst
    simpa using hno st hst
  have hidx : s.streamIdx (b / 4) = none := by
    unfold AvdtpSession.streamIdx
    rw [List.findIdx?_eq_none_iff]
    intro st hst
    simpa using hno st hst
  refine ⟨?_, ?_, ?_, ?_, ?_, rfl⟩ <;>
    simp [handle_signal_message, tryAccept, readU8, finish, AvdtpSession.modifyStream,
      startLoop, suspendLoop, hfind, hidx, Bind.bind, Except.bind]

/-- C10 witness: the theorem at a session holding endpoint 1 and no streams —
GetConfiguration for seid 1 is rejected with BadState. -/
theorem C10_witness :
    handle_signal_message ⟨[⟨1, false, 0, 1, []⟩], [], false⟩
        ⟨0, .Command, .GetConfiguration, [4]⟩ =
      (⟨[⟨1, false, 0, 1, []⟩], [], false⟩,
       ⟨0, .GetConfiguration, .reject [] .BadState⟩) := by
  have h := C10_missing_stream_error ⟨[⟨1, false, 0, 1, []⟩], [], false⟩ 0 4 (by simp)
  simpa [AvdtpSession.get_stream_error] using h.1

/-- Helper: the quantized volume never exceeds MAX_VOLUME = 0x7F. -/
theorem quantizeVolume_le (v : ℚ) : quantizeVolume v ≤ 127 := by
  unfold quantizeVolume MAX_VOLUME
  rw [show ((0x7f : Nat) : ℚ) = 127 by norm_num]
  have h1 : max (min v 1) 0 ≤ 1 := max_le (min_le_right v 1) (by norm_num)
  have h0 : (0 : ℚ) ≤ max (min v 1) 0 := le_max_right _ _
  have h3 : round (max (min v 1) 0 * (127 : ℚ)) ≤ (127 : ℤ) := by
    rw [round_eq]
    have hle : max (min v 1) 0 * (127 : ℚ) + 1 / 2 ≤ (127 : ℚ) + 1 / 2 := by nlinarith
    calc ⌊max (min v 1) 0 * (127 : ℚ) + 1 / 2⌋ ≤ ⌊(127 : ℚ) + 1 / 2⌋ :=
          Int.floor_le_floor hle
      _ = 127 := by
          rw [show ((127 : ℚ) + 1 / 2) = ((127 : ℤ) : ℚ) + 1 / 2 by norm_num,
            Int.floor_int_add]
          norm_num [Int.floor_eq_zero_iff, Set.mem_Ico]
  exact Int.toNat_le.mpr h3

/-- Helper: `UpdatedVolume(0.5)` quantizes to 0x40, as in spec §8 scenario 4. -/
theorem quantizeVolume_half : quantizeVolume (1 / 2) = 64 := by
  unfold quantizeVolume MAX_VOLUME
  rw [show ((0x7f : Nat) : ℚ) = 127 by norm_num,
    min_eq_left (by norm_num : (1 : ℚ) / 2 ≤ 1),
    max_eq_left (by norm_num : (0 : ℚ) ≤ 1 / 2), round_eq,
    show (1 : ℚ) / 2 * 127 + 1 / 2 = ((64 : ℤ) : ℚ) by norm_num,
    Int.floor_intCast]
  rfl

def c6FullState : Avrcp.State :=
  ⟨127, List.replicate 16 (.PendingPassThrough 0), [(.VolumeChanged, 3)]⟩

/-- C6 counterexample: with every transaction slot busy, `UpdatedVolume(0.5)`
quantizes to 0x40 ≠ stored 0x7F and a VolumeChanged registration is
outstanding, yet the command is dropped before the `UpdatedVolume` arm runs
(the free-slot scan precedes the dispatch): nothing is sent, the registry and
the stored volume are unchanged — against the claim, which demands a Changed
response for every such command. -/
theorem C6_counterexample_full_table :
    quantizeVolume (1 / 2) ≠ c6FullState.volume ∧
    regLookup c6FullState.registered_notifications .VolumeChanged = some 3 ∧
    handleUserCommand c6FullState (.UpdatedVolume (1 / 2)) = (c6FullState, []) := by
  refine ⟨?_, by decide, by decide⟩
  rw [quantizeVolume_half]
  decide

/-- C6 (amended): provided a free transaction slot exists (the free-slot scan in
`State::run` precedes the dispatch and silently drops the command otherwise),
`UpdatedVolume(v)` clamps v to [0,1] and quantizes it to 0..=0x7F; if the
quantized value differs from the stored volume and the registry holds an
outstanding VolumeChanged registration, a Changed response carrying
(VolumeChanged, new volume) is sent on that registration's transaction label and
the registry entry is removed; if the quantized value equals the stored volume,
nothing is sent and the state is unchanged. -/
theorem C6_updated_volume
    (s : Avrcp.State) (v : ℚ) (lbl t : Nat)
    (hfree : s.outstanding_transactions.findIdx? TransactionState.is_free = some t) :
    quantizeVolume v ≤ 127 ∧
    (quantizeVolume v ≠ s.volume →
      regLookup s.registered_notifications .VolumeChanged = some lbl →
      handleUserCommand s (.UpdatedVolume v) =
        ({ s with
            volume := quantizeVolume v,
            registered_notifications := regRemove s.registered_notifications .VolumeChanged },
         [.sentAvrcp lbl .Changed .RegisterNotification [0x0d, quantizeVolume v]])) ∧
    (quantizeVolume v = s.volume →
      handleUserCommand s (.UpdatedVolume v) = (s, [])) := by
  refine ⟨quantizeVolume_le v, fun hne hreg => ?_, fun heq => ?_⟩
  · unfold handleUserCommand
    rw [hfree]
    simp [hne, hreg, EventId.toByte]
  · unfold handleUserCommand
    rw [hfree]
    simp [heq]

def c6FreeState : Avrcp.State := ⟨127, List.replicate 16 .Empty, [(.VolumeChanged, 3)]⟩

/-- C6 witness: the amended theorem at a concrete state with all slots free,
stored volume 0x7F and an outstanding registration on label 3:
`UpdatedVolume(0.5)` sends the Changed response on label 3 and clears the
registry. -/
theorem C6_witness :
    handleUserCommand c6FreeState (.UpdatedVolume (1 / 2)) =
      ({ c6FreeState with
          volume := quantizeVolume (1 / 2),
          registered_notifications := regRemove c6FreeState.registered_notifications .VolumeChanged },
       [.sentAvrcp 3 .Changed .RegisterNotification [0x0d, quantizeVolume (1 / 2)]]) :=
  (C6_updated_volume c6FreeState (1 / 2) 3 0 (by decide)).2.1
    (by rw [quantizeVolume_half]; decide) (by decide)

/-- Invariant of the AVRCP admission state: the handles with a running session
loop are distinct and every one of them is still in `existing_connections`. -/
def ServerInv (s : ServerState) : Prop :=
  s.sessions.Nodup ∧ ∀ h ∈ s.sessions, h ∈ s.existing_connections

theorem serverStep_inv (s : ServerState) (e : ServerEvent) (hs : ServerInv s) :
    ServerInv (serverStep s e).1 := by
  obtain ⟨hnd, hsub⟩ := hs
  cases e with
  | newChannel h aok cok =>
    by_cases hin : h ∈ s.existing_connections
    · simpa [serverStep, hin] using ⟨hnd, hsub⟩
    · simp only [serverStep, hin, if_neg, not_false_iff]
      cases aok <;> cases cok <;> simp only [Bool.false_eq_true, if_true, if_false]
      · exact ⟨hnd, fun x hx => List.mem_cons_of_mem h (hsub x hx)⟩
      · exact ⟨hnd, fun x hx => List.mem_cons_of_mem h (hsub x hx)⟩
      · exact ⟨hnd, fun x hx => List.mem_cons_of_mem h (hsub x hx)⟩
      · refine ⟨List.nodup_cons.mpr ⟨fun hmem => hin (hsub h hmem), hnd⟩, ?_⟩
        intro x hx
        rcases List.mem_cons.mp hx with rfl | hx
        · exact List.mem_cons_self x _
        · exact List.mem_cons_of_mem h (hsub x hx)
  | sessionEnd h =>
    by_cases hin : h ∈ s.sessions
    · simp only [serverStep, hin, if_pos]
      refine ⟨hnd.erase h, fun x hx => ?_⟩
      have hx' := (hnd.mem_erase_iff).mp hx
      exact (List.mem_erase_of_ne hx'.1).mpr (hsub x hx'.2)
    · simpa [serverStep, hin] using ⟨hnd, hsub⟩

theorem serverRun_inv (s : ServerState) (es : List ServerEvent) (hs : ServerInv s) :
    ServerInv (serverRun s es).1 := by
  induction es generalizing s with
  | nil => exact hs
  | cons e es ih =>
    simp only [serverRun]
    exact ih _ (serverStep_inv s e hs)

/-- C9: in every state reachable by `serverStep` from the initial admission
state, at most one session loop runs per connection handle; a control channel
arriving for a handle whose session is active is rejected with no other effect
(in particular the session handler is not invoked); and a handle can leave
`existing_connections` only through the `sessionEnd` event of that same handle —
the end of its session loop. -/
theorem C9_single_session_per_handle
    (tr : List ServerEvent) (h : Nat) (aok cok : Bool) (e : ServerEvent) :
    (serverRun serverInit tr).1.sessions.count h ≤ 1 ∧
    (h ∈ (serverRun serverInit tr).1.sessions →
      serverStep (serverRun serverInit tr).1 (.newChannel h aok cok) =
        ((serverRun serverInit tr).1, [.rejectedConnection h])) ∧
    (h ∈ (serverRun serverInit tr).1.existing_connections →
      h ∉ (serverStep (serverRun serverInit tr).1 e).1.existing_connections →
      e = .sessionEnd h) := by
  have hinv : ServerInv (serverRun serverInit tr).1 :=
    serverRun_inv serverInit tr ⟨List.nodup_nil, fun x hx => absurd hx (List.not_mem_nil x)⟩
  set s := (serverRun serverInit tr).1 with hs
  refine ⟨List.nodup_iff_count_le_one.mp hinv.1 h, fun hmem => ?_, fun hin hout => ?_⟩
  · have hex : h ∈ s.existing_connections := hinv.2 h hmem
    simp [serverStep, hex]
  · cases e with
    | newChannel h' a c =>
      exfalso
      by_cases hh : h' ∈ s.existing_connections
      · simp only [serverStep, hh, if_pos] at hout
        exact hout hin
      · simp only [serverStep, hh, if_neg, not_false_iff] at hout
        cases a <;> cases c <;> simp only [Bool.false_eq_true, if_true, if_false] at hout <;>
          exact hout (List.mem_cons_of_mem h' hin)
    | sessionEnd h' =>
      by_cases hh : h' ∈ s.sessions
      · simp only [serverStep, hh, if_pos] at hout
        by_cases heq : h = h'
        · rw [heq]
        · exact absurd ((List.mem_erase_of_ne heq).mpr hin) hout
      · simp only [serverStep, hh, if_neg, not_false_iff] at hout
        exact absurd hin hout

/-- C9 witness: after one successfully admitted channel for handle 1, the
session is active and a second channel for handle 1 is rejected with no handler
invocation. -/
theorem C9_witness :
    (1 : Nat) ∈ (serverRun serverInit [.newChannel 1 true true]).1.sessions ∧
    serverStep (serverRun serverInit [.newChannel 1 true true]).1 (.newChannel 1 true true) =
      ((serverRun serverInit [.newChannel 1 true true]).1, [.rejectedConnection 1]) :=
  ⟨by decide,
   (C9_single_session_per_handle [.newChannel 1 true true] 1 true true
     (.sessionEnd 1)).2.1 (by decide)⟩

end Bluefang
